import Mathlib

/-!
Shallow embedding of the `budgetyourtrip_api` client library
(`budgetyourtrip_api/models.py` and `budgetyourtrip_api/api.py`).

Python values decoded from JSON are modelled by the inductive `Json`
(Python `None` is `Json.null`).  Python exceptions are modelled by the
error type `PyErr` together with `Except`: an expression that may raise
has type `Except PyErr α`.  HTTP responses are modelled by a status code
and an optional parsed JSON body (`none` when `response.json()` would
raise `ValueError`).  The HTTP session is modelled as a pure function
from URL to response.
-/

/-- A JSON-like Python value: `None`, booleans, numbers, strings,
lists, and string-keyed dictionaries. -/
inductive Json where
  | null : Json
  | bool : Bool → Json
  | num : Int → Json
  | str : String → Json
  | arr : List Json → Json
  | obj : List (String × Json) → Json
deriving Repr

mutual

/-- Structural (Python `==`) equality of JSON values. -/
def Json.beq : Json → Json → Bool
  | Json.null, Json.null => true
  | Json.bool a, Json.bool b => a == b
  | Json.num a, Json.num b => a == b
  | Json.str a, Json.str b => a == b
  | Json.arr xs, Json.arr ys => Json.beqArr xs ys
  | Json.obj xs, Json.obj ys => Json.beqObj xs ys
  | _, _ => false

/-- Elementwise equality of JSON lists. -/
def Json.beqArr : List Json → List Json → Bool
  | [], [] => true
  | x :: xs, y :: ys => Json.beq x y && Json.beqArr xs ys
  | _, _ => false

/-- Elementwise equality of key-value lists. -/
def Json.beqObj : List (String × Json) → List (String × Json) → Bool
  | [], [] => true
  | (k1, v1) :: xs, (k2, v2) :: ys => k1 == k2 && Json.beq v1 v2 && Json.beqObj xs ys
  | _, _ => false

end

/-- Python exceptions that the embedded code can raise. -/
inductive PyErr where
  | keyError : PyErr
  | typeError : PyErr
  | attributeError : PyErr
  | httpError : PyErr
  | notImplementedError : PyErr
deriving DecidableEq, Repr

/-- Python truthiness of a decoded JSON value: `None`, `False`, `0`,
`""`, `[]` and `{}` are falsy, everything else is truthy. -/
def truthy : Json → Bool
  | Json.null => false
  | Json.bool b => b
  | Json.num n => n != 0
  | Json.str s => s != ""
  | Json.arr xs => !xs.isEmpty
  | Json.obj kvs => !kvs.isEmpty

/-- First-match association-list lookup; Python dictionaries have unique
keys, so this models key lookup on a dict. -/
def lookupStr {α : Type} (xs : List (String × α)) (k : String) : Option α :=
  match xs with
  | [] => none
  | (k2, v) :: rest => if k2 = k then some v else lookupStr rest k

/-- Python subscript `d[k]` with a string key `k`: on a dict it returns
the value or raises `KeyError`; on any non-dict value it raises
`TypeError`. -/
def subscript (d : Json) (k : String) : Except PyErr Json :=
  match d with
  | Json.obj kvs =>
    match lookupStr kvs k with
    | some v => Except.ok v
    | none => Except.error PyErr.keyError
  | _ => Except.error PyErr.typeError

/-- A source path of an attribute mapping: either a single key or an
ordered sequence of keys (`models.py` accepts a `str` or a
`list`/`tuple`). -/
inductive MapPath where
  | key : String → MapPath
  | keys : List String → MapPath
deriving DecidableEq, Repr

/-- The loop `for k in map_list: data_dict = data_dict[k]`: successive
subscripts, the first exception escaping. -/
def subscriptKeys : Json → List String → Except PyErr Json
  | d, [] => Except.ok d
  | d, k :: ks =>
    match subscript d k with
    | Except.error e => Except.error e
    | Except.ok d2 => subscriptKeys d2 ks

namespace ApiObject

/-- `ApiObject._get_from_dict(data_dict, map_list)`: a single key is used
directly as a subscript; a list of keys is applied left to right,
descending into successive sub-documents. -/
def getFromDict (d : Json) (m : MapPath) : Except PyErr Json :=
  match m with
  | MapPath.key k => subscript d k
  | MapPath.keys ks => subscriptKeys d ks

/-- One iteration of the loop in `ApiObject._build`: the value at the
attribute's path, with `KeyError` (and only `KeyError`) caught and
replaced by the absence marker `None`. -/
def buildField (d : Json) (m : MapPath) : Except PyErr Json :=
  match getFromDict d m with
  | Except.ok v => Except.ok v
  | Except.error PyErr.keyError => Except.ok Json.null
  | Except.error e => Except.error e

/-- `ApiObject._build(model_json)`: iterate over `self.attrs`, setting
one attribute per mapping entry; a missing key becomes `None`, any other
exception escapes. -/
def build (attrs : List (String × MapPath)) (d : Json) :
    Except PyErr (List (String × Json)) :=
  match attrs with
  | [] => Except.ok []
  | (k, m) :: rest =>
    match buildField d m with
    | Except.error e => Except.error e
    | Except.ok v =>
      match build rest d with
      | Except.error e => Except.error e
      | Except.ok fs => Except.ok ((k, v) :: fs)

/-- The value an attribute receives when its lookup does not raise
`TypeError`: the resolved value, or `None` after a `KeyError`. -/
def resolveField (d : Json) (m : MapPath) : Json :=
  match getFromDict d m with
  | Except.ok v => v
  | Except.error _ => Json.null

end ApiObject

/-- Python iteration `for x in v`: a list yields its elements, a string
its one-character substrings, a dict its keys; any other value raises
`TypeError`. -/
def pyIter : Json → Except PyErr (List Json)
  | Json.arr xs => Except.ok xs
  | Json.str s => Except.ok (s.data.map (fun c => Json.str (String.mk [c])))
  | Json.obj kvs => Except.ok (kvs.map (fun kv => Json.str kv.1))
  | _ => Except.error PyErr.typeError

/-- The accumulation loop `items = []; for x in xs: items.append(f(x))`,
where an exception raised by `f` escapes immediately. -/
def buildList {α : Type} (f : Json → Except PyErr α) :
    List Json → Except PyErr (List α)
  | [] => Except.ok []
  | x :: xs =>
    match f x with
    | Except.error e => Except.error e
    | Except.ok a =>
      match buildList f xs with
      | Except.error e => Except.error e
      | Except.ok rest => Except.ok (a :: rest)

/-- The attribute mapping declared in `Category.__init__`. -/
def Category.attrs : List (String × MapPath) :=
  [("id_", MapPath.key "category_id"),
   ("name", MapPath.key "name"),
   ("description", MapPath.key "description")]

/-- The attribute mapping declared in `Cost.__init__`. -/
def Cost.attrs : List (String × MapPath) :=
  [("id_", MapPath.key "category_id"),
   ("budget", MapPath.key "value_budget"),
   ("midrange", MapPath.key "value_midrange"),
   ("luxury", MapPath.key "value_luxury"),
   ("country_id", MapPath.key "country_code")]

/-- A constructed `Cost` object, reduced to its built attribute values. -/
structure CostRec where
  fields : List (String × Json)
deriving Repr

/-- `Cost.__init__(cost_json)`. -/
def Cost.init (j : Json) : Except PyErr CostRec :=
  match ApiObject.build Cost.attrs j with
  | Except.error e => Except.error e
  | Except.ok fs => Except.ok ⟨fs⟩

/-- The attribute mapping declared in `Country.__init__`. -/
def Country.attrs : List (String × MapPath) :=
  [("id_", MapPath.key "country_code"),
   ("name", MapPath.key "name"),
   ("canonical_url", MapPath.key "url"),
   ("negotiate", MapPath.key "negotiate"),
   ("currency", MapPath.key "currency_code")]

/-- A constructed `Country` object: its built attribute values and its
optional list of owned `Cost` objects (`None` in the bare branch). -/
structure CountryRec where
  fields : List (String × Json)
  costs : Option (List CostRec)
deriving Repr

/-- `Country.__init__(country_json)`: branches on the truthiness of
`country_json['info']` (a plain subscript, so a payload with no `info`
key raises `KeyError`); in the truthy branch it builds the fields from
the `info` sub-document and one `Cost` per element of
`country_json['costs']`, in order; otherwise it builds the fields from
the top-level document and leaves `costs` as `None`. -/
def Country.init (j : Json) : Except PyErr CountryRec :=
  match subscript j "info" with
  | Except.error e => Except.error e
  | Except.ok info =>
    if truthy info then
      match ApiObject.build Country.attrs info with
      | Except.error e => Except.error e
      | Except.ok fs =>
        match subscript j "costs" with
        | Except.error e => Except.error e
        | Except.ok cv =>
          match pyIter cv with
          | Except.error e => Except.error e
          | Except.ok items =>
            match buildList Cost.init items with
            | Except.error e => Except.error e
            | Except.ok cs => Except.ok ⟨fs, some cs⟩
    else
      match ApiObject.build Country.attrs j with
      | Except.error e => Except.error e
      | Except.ok fs => Except.ok ⟨fs, none⟩

/-- An HTTP response as seen by the client: a status code and the parsed
JSON body, `none` when `response.json()` would raise `ValueError`. -/
structure HttpResponse where
  status : Nat
  body : Option Json
deriving Repr

/-- `requests.Response.raise_for_status()`: raises `HTTPError` for a
status code in [400, 600) and does nothing otherwise. -/
def raiseForStatus (s : Nat) : Except PyErr Unit :=
  if 400 ≤ s ∧ s < 600 then Except.error PyErr.httpError else Except.ok ()

namespace Api

/-- The `try: return response.json()['data'] except ValueError: pass`
tail of `Api.__get_data`: a body that is not valid JSON yields `None`
(the `ValueError` is caught); on a parsed body, `body['data']` is
returned and any exception it raises (`KeyError` on a dict without the
key, `TypeError` on a non-dict) escapes. -/
def getDataBody : Option Json → Except PyErr (Option Json)
  | none => Except.ok none
  | some j =>
    match subscript j "data" with
    | Except.ok v => Except.ok (some v)
    | Except.error e => Except.error e

/-- `Api.__get_data`: status 401 goes through `raise_for_status` (which
always raises there); 404 returns `None`; any other non-200 status goes
through `raise_for_status`, which raises for [400, 600) and is a no-op
otherwise, in which case control falls through to the body parse, as it
does for 200. -/
def getData (r : HttpResponse) : Except PyErr (Option Json) :=
  if r.status = 401 then
    match raiseForStatus r.status with
    | Except.error e => Except.error e
    | Except.ok _ => getDataBody r.body
  else if r.status = 404 then
    Except.ok none
  else if r.status ≠ 200 then
    match raiseForStatus r.status with
    | Except.error e => Except.error e
    | Except.ok _ => getDataBody r.body
  else
    getDataBody r.body

/-- `posixpath.join` for the two-argument uses in `api.py`. -/
def posixJoin (a b : String) : String :=
  if b.startsWith "/" then b
  else if a = "" || a.endsWith "/" then a ++ b
  else a ++ "/" ++ b

/-- `Api.__build_response(path, model_class)`: the model class is a
constructor `mk` (its `api=self` argument already applied).  A falsy
payload yields `None`; otherwise one object is constructed from it. -/
def buildResponseWith {α : Type} (fetch : String → HttpResponse)
    (endPoint path : String) (mk : Json → Except PyErr α) :
    Except PyErr (Option α) :=
  match getData (fetch (posixJoin endPoint path)) with
  | Except.error e => Except.error e
  | Except.ok none => Except.ok none
  | Except.ok (some d) =>
    if truthy d then
      match mk d with
      | Except.error e => Except.error e
      | Except.ok o => Except.ok (some o)
    else Except.ok none

/-- `Api.__get_multiple(path, model_class)`: a falsy payload yields
`None`; otherwise the payload is iterated and one object is constructed
per item, in order. -/
def getMultipleWith {α : Type} (fetch : String → HttpResponse)
    (endPoint path : String) (mk : Json → Except PyErr α) :
    Except PyErr (Option (List α)) :=
  match getData (fetch (posixJoin endPoint path)) with
  | Except.error e => Except.error e
  | Except.ok none => Except.ok none
  | Except.ok (some d) =>
    if truthy d then
      match pyIter d with
      | Except.error e => Except.error e
      | Except.ok items =>
        match buildList mk items with
        | Except.error e => Except.error e
        | Except.ok objs => Except.ok (some objs)
    else Except.ok none

/-- The URL path built in `convert_currency`: `currencies/convert/` followed by the source currency, the target currency and the amount. -/
def convertPath (amount : Int) (fromCur toCur : String) : String :=
  "currencies/convert/" ++ fromCur ++ "/" ++ toCur ++ "/" ++ toString amount

/-- `Api.convert_currency(amount, from_cur, to_cur)`: a falsy payload
yields `None`, otherwise the raw value of the payload's `newAmount`
field is returned, not wrapped in a domain record. -/
def convertCurrency (fetch : String → HttpResponse) (endPoint : String)
    (amount : Int) (fromCur toCur : String) : Except PyErr (Option Json) :=
  match getData (fetch (posixJoin endPoint (convertPath amount fromCur toCur))) with
  | Except.error e => Except.error e
  | Except.ok none => Except.ok none
  | Except.ok (some d) =>
    if truthy d then
      match subscript d "newAmount" with
      | Except.ok v => Except.ok (some v)
      | Except.error e => Except.error e
    else Except.ok none

end Api

/-- A value stored in an instance `__dict__`: a decoded JSON value, the
`attrs` mapping dictionary itself, or some other Python object
identified by an abstract tag (e.g. the `Api` client held by `_api`, or a
list of `Cost` objects held by `costs`). -/
inductive PyVal where
  | json : Json → PyVal
  | attrsVal : List (String × MapPath) → PyVal
  | obj : Nat → PyVal
deriving Repr

/-- Python truthiness of a `__dict__` value: JSON values by `truthy`,
the `attrs` dictionary by non-emptiness, any other object is truthy. -/
def PyVal.pyTruthy : PyVal → Bool
  | PyVal.json j => truthy j
  | PyVal.attrsVal m => !m.isEmpty
  | PyVal.obj _ => true

/-- A Python instance of an `ApiObject` subclass: its run-time class
(`ty`), its declared attribute mapping `attrs`, and its instance
dictionary `__dict__`. -/
structure PyObj where
  ty : String
  attrs : List (String × MapPath)
  dict : List (String × PyVal)
deriving Repr

/-- Python dict assignment (`d[k] = v` / `d.update({k: v})`): replaces
the existing binding in place, or appends a new one. -/
def updateStr {α : Type} (xs : List (String × α)) (k : String) (v : α) :
    List (String × α) :=
  match xs with
  | [] => [(k, v)]
  | (k2, w) :: rest =>
    if k2 = k then (k2, v) :: rest else (k2, w) :: updateStr rest k v

/-- The dict comprehension `dict((k, o.__dict__[k]) for k in o.attrs.keys())`
used by `ApiObject.__eq__`; `KeyError` if an attribute key is missing
from the instance dictionary. -/
def restrictLoop (d : List (String × PyVal)) :
    List (String × MapPath) → Except PyErr (List (String × PyVal))
  | [] => Except.ok []
  | (k, _) :: rest =>
    match lookupStr d k with
    | some v =>
      match restrictLoop d rest with
      | Except.error e => Except.error e
      | Except.ok fs => Except.ok ((k, v) :: fs)
    | none => Except.error PyErr.keyError

/-- Restriction of an object's `__dict__` to its declared attribute keys. -/
def restrictDict (o : PyObj) : Except PyErr (List (String × PyVal)) :=
  restrictLoop o.dict o.attrs

/-- Structural equality of `__dict__` values; `PyVal.obj` tags compare
by identity, which is Python's default object equality. -/
def PyVal.beq : PyVal → PyVal → Bool
  | PyVal.json a, PyVal.json b => Json.beq a b
  | PyVal.attrsVal a, PyVal.attrsVal b => a == b
  | PyVal.obj a, PyVal.obj b => a == b
  | _, _ => false

/-- Python `==` on two string-keyed dicts: the same key set with equal
values. -/
def dictEqB (xs ys : List (String × PyVal)) : Bool :=
  xs.all (fun kv => (lookupStr ys kv.1).elim false (PyVal.beq kv.2)) &&
  ys.all (fun kv => (lookupStr xs kv.1).elim false (PyVal.beq kv.2))

/-- `ApiObject.__eq__`: the same run-time class, and equal restrictions
of the two instance dictionaries to the declared attribute keys.  The
`and` short-circuits, so the dictionaries are only built (and can only
raise) when the classes agree. -/
def ApiObject.eq (a b : PyObj) : Except PyErr Bool :=
  if a.ty = b.ty then
    match restrictDict a with
    | Except.error e => Except.error e
    | Except.ok da =>
      match restrictDict b with
      | Except.error e => Except.error e
      | Except.ok db => Except.ok (dictEqB da db)
  else
    Except.ok false

/-- The `api_method` decorator: `args[0]._api` is read from the instance
dictionary (`AttributeError` if unset); when it is truthy the wrapped
function runs on the original arguments and its result is returned
unchanged, otherwise `NotImplementedError` is raised. -/
def apiMethod {α β : Type} (func : PyObj → α → Except PyErr β)
    (self : PyObj) (arg : α) : Except PyErr β :=
  match lookupStr self.dict "_api" with
  | some v =>
    if v.pyTruthy then func self arg else Except.error PyErr.notImplementedError
  | none => Except.error PyErr.attributeError

/-- The common `__init__` shape of every model class (`Category`,
`Currency`, `Location`, bare-branch `Country`, `Cost`): set `self._api`,
set `self.attrs`, then `self._build(model_json)`, each built attribute
entering the instance dictionary in turn. -/
def mkApiObject (ty : String) (attrs : List (String × MapPath))
    (api : PyVal) (j : Json) : Except PyErr PyObj :=
  match ApiObject.build attrs j with
  | Except.error e => Except.error e
  | Except.ok fs =>
    Except.ok ⟨ty, attrs,
      fs.foldl (fun d kv => updateStr d kv.1 (PyVal.json kv.2))
        [("_api", api), ("attrs", PyVal.attrsVal attrs)]⟩

/-- Last-match association-list lookup: the binding a sequence of Python
dict assignments leaves in place. -/
def lookupLastStr {α : Type} (xs : List (String × α)) (k : String) : Option α :=
  match xs with
  | [] => none
  | (k2, v) :: rest =>
    match lookupLastStr rest k with
    | some w => some w
    | none => if k2 = k then some v else none

/-! ### Concrete example values -/

/-- An attribute mapping exercising a resolvable key, a second
resolvable key and an unresolvable one. -/
def buildAttrsEx : List (String × MapPath) :=
  [("id_", MapPath.key "category_id"), ("name", MapPath.key "name"),
   ("missing", MapPath.key "nope")]

/-- A sample category document. -/
def buildDocEx : Json :=
  Json.obj [("category_id", Json.num 1), ("name", Json.str "Accommodation")]

/-- A sample `info` sub-document of a country payload. -/
def infoEx : Json := Json.obj
  [("country_code", Json.str "US"), ("name", Json.str "United States of America"),
   ("url", Json.str "https://www.budgetyourtrip.com/usa"),
   ("negotiate", Json.num 0), ("currency_code", Json.str "USD")]

/-- A sample cost document. -/
def costJsonEx : Json := Json.obj
  [("category_id", Json.num 1), ("value_budget", Json.num 27),
   ("value_midrange", Json.num 62), ("value_luxury", Json.num 146),
   ("country_code", Json.str "US")]

/-- A sample combined info+costs country payload. -/
def countryJsonEx : Json :=
  Json.obj [("info", infoEx), ("costs", Json.arr [costJsonEx])]

/-- The `Cost` object built from `costJsonEx`. -/
def costRecEx : CostRec :=
  ⟨[("id_", Json.num 1), ("budget", Json.num 27), ("midrange", Json.num 62),
    ("luxury", Json.num 146), ("country_id", Json.str "US")]⟩

/-- The `Country` object built from `countryJsonEx`. -/
def countryRecEx : CountryRec :=
  ⟨[("id_", Json.str "US"), ("name", Json.str "United States of America"),
    ("canonical_url", Json.str "https://www.budgetyourtrip.com/usa"),
    ("negotiate", Json.num 0), ("currency", Json.str "USD")], some [costRecEx]⟩

/-- A session returning a category list payload for every URL. -/
def fetchListEx : String → HttpResponse := fun _ =>
  ⟨200, some (Json.obj [("data", Json.arr [Json.num 1, Json.num 2])])⟩

/-- A session returning a currency-conversion payload for every URL. -/
def fetchConvEx : String → HttpResponse := fun _ =>
  ⟨200, some (Json.obj [("data", Json.obj [("newAmount", Json.num 17)])])⟩

/-- A session returning a single-category payload for every URL. -/
def fetchCatEx : String → HttpResponse := fun _ =>
  ⟨200, some (Json.obj [("data",
    Json.obj [("category_id", Json.num 1), ("name", Json.str "Accommodation"),
              ("description", Json.str "d")])])⟩

/-- A session returning a falsy (empty-dict) payload for every URL. -/
def fetchFalsyEx : String → HttpResponse := fun _ =>
  ⟨200, some (Json.obj [("data", Json.obj [])])⟩

/-- A `Category` instance as built by the client, holding one client
reference. -/
def catObjEx1 : PyObj := ⟨"Category", Category.attrs,
  [("_api", PyVal.obj 1), ("attrs", PyVal.attrsVal Category.attrs),
   ("id_", PyVal.json (Json.num 1)), ("name", PyVal.json (Json.str "Accommodation")),
   ("description", PyVal.json (Json.str "d"))]⟩

/-- The same `Category` built by a different client instance. -/
def catObjEx2 : PyObj := ⟨"Category", Category.attrs,
  [("_api", PyVal.obj 2), ("attrs", PyVal.attrsVal Category.attrs),
   ("id_", PyVal.json (Json.num 1)), ("name", PyVal.json (Json.str "Accommodation")),
   ("description", PyVal.json (Json.str "d"))]⟩

/-- An object whose `_api` back-reference is `None` (detached). -/
def detachedObjEx : PyObj := ⟨"Category", Category.attrs,
  [("_api", PyVal.json Json.null), ("attrs", PyVal.attrsVal Category.attrs)]⟩

/-- An object holding a live client back-reference. -/
def attachedObjEx : PyObj := ⟨"Category", Category.attrs,
  [("_api", PyVal.obj 7), ("attrs", PyVal.attrsVal Category.attrs)]⟩

/-! ### Basic lemmas about the embedded primitives -/

mutual

theorem Json.beq_iff : ∀ (a b : Json), Json.beq a b = true ↔ a = b
  | Json.null, b => by cases b <;> simp [Json.beq]
  | Json.bool a, b => by cases b <;> simp [Json.beq]
  | Json.num a, b => by cases b <;> simp [Json.beq]
  | Json.str a, b => by cases b <;> simp [Json.beq]
  | Json.arr xs, b => by
    cases b <;> simp [Json.beq]
    exact Json.beqArr_iff xs _
  | Json.obj xs, b => by
    cases b <;> simp [Json.beq]
    exact Json.beqObj_iff xs _

theorem Json.beqArr_iff : ∀ (xs ys : List Json), Json.beqArr xs ys = true ↔ xs = ys
  | [], ys => by cases ys <;> simp [Json.beqArr]
  | x :: xs, ys => by
    cases ys with
    | nil => simp [Json.beqArr]
    | cons y ys =>
      simp [Json.beqArr, Json.beq_iff x y, Json.beqArr_iff xs ys]

theorem Json.beqObj_iff :
    ∀ (xs ys : List (String × Json)), Json.beqObj xs ys = true ↔ xs = ys
  | [], ys => by cases ys <;> simp [Json.beqObj]
  | (k1, v1) :: xs, ys => by
    cases ys with
    | nil => simp [Json.beqObj]
    | cons y ys =>
      obtain ⟨k2, v2⟩ := y
      simp [Json.beqObj, Json.beq_iff v1 v2, Json.beqObj_iff xs ys, and_assoc]

end

theorem pyValBeq_iff (a b : PyVal) : PyVal.beq a b = true ↔ a = b := by
  cases a <;> cases b <;> simp [PyVal.beq, Json.beq_iff]

theorem lookupStr_eq_none_iff {α : Type} (xs : List (String × α)) (k : String) :
    lookupStr xs k = none ↔ k ∉ xs.map Prod.fst := by
  induction xs with
  | nil => simp [lookupStr]
  | cons kv rest ih =>
    obtain ⟨k2, v⟩ := kv
    by_cases h : k2 = k
    · subst h
      simp [lookupStr]
    · simp only [lookupStr, if_neg h, ih, List.map_cons, List.mem_cons]
      constructor
      · intro hn hc
        rcases hc with hc | hm
        · exact h hc.symm
        · exact hn hm
      · intro hn hm
        exact hn (Or.inr hm)

theorem lookupStr_isSome_of_mem {α : Type} {xs : List (String × α)} {k : String}
    (h : k ∈ xs.map Prod.fst) : ∃ v, lookupStr xs k = some v := by
  cases hl : lookupStr xs k with
  | some v => exact ⟨v, rfl⟩
  | none => exact absurd h ((lookupStr_eq_none_iff xs k).mp hl)

theorem mem_of_lookupStr {α : Type} {xs : List (String × α)} {k : String} {v : α}
    (h : lookupStr xs k = some v) : (k, v) ∈ xs := by
  induction xs with
  | nil => simp [lookupStr] at h
  | cons kv rest ih =>
    obtain ⟨k2, w⟩ := kv
    by_cases h2 : k2 = k
    · subst h2
      simp only [lookupStr, if_pos rfl] at h
      injection h with h
      subst h
      exact List.mem_cons_self _ _
    · simp only [lookupStr, if_neg h2] at h
      exact List.mem_cons_of_mem _ (ih h)

theorem lookupStr_updateStr_self {α : Type} (xs : List (String × α)) (k : String) (v : α) :
    lookupStr (updateStr xs k v) k = some v := by
  induction xs with
  | nil => simp [updateStr, lookupStr]
  | cons kv rest ih =>
    obtain ⟨k2, w⟩ := kv
    by_cases h : k2 = k <;> simp [updateStr, lookupStr, h, ih]

theorem lookupStr_updateStr_ne {α : Type} (xs : List (String × α)) (k k2 : String) (v : α)
    (h : k2 ≠ k) : lookupStr (updateStr xs k v) k2 = lookupStr xs k2 := by
  induction xs with
  | nil =>
    simp only [updateStr, lookupStr, if_neg (Ne.symm h)]
  | cons kv rest ih =>
    obtain ⟨k3, w⟩ := kv
    by_cases h3 : k3 = k
    · subst h3
      simp only [updateStr, lookupStr, if_pos rfl, if_neg (Ne.symm h)]
    · simp only [updateStr, if_neg h3, lookupStr]
      by_cases h4 : k3 = k2
      · rw [if_pos h4, if_pos h4]
      · rw [if_neg h4, if_neg h4, ih]

theorem lookupStr_foldl_update {α β : Type} (f : α → β) :
    ∀ (fs : List (String × α)) (d0 : List (String × β)) (k : String),
    lookupStr (fs.foldl (fun d kv => updateStr d kv.1 (f kv.2)) d0) k =
      match lookupLastStr fs k with
      | some v => some (f v)
      | none => lookupStr d0 k
  | [], d0, k => by simp [lookupLastStr]
  | (k1, v1) :: rest, d0, k => by
    show lookupStr (rest.foldl _ (updateStr d0 k1 (f v1))) k = _
    rw [lookupStr_foldl_update f rest (updateStr d0 k1 (f v1)) k]
    cases hl : lookupLastStr rest k with
    | some w => simp [lookupLastStr, hl]
    | none =>
      by_cases h1 : k1 = k
      · subst h1
        simp [lookupLastStr, hl, lookupStr_updateStr_self]
      · simp [lookupLastStr, hl, h1, lookupStr_updateStr_ne _ _ _ _ (Ne.symm h1)]

theorem lookupLastStr_isSome_of_mem {α : Type} :
    ∀ {xs : List (String × α)} {k : String},
    k ∈ xs.map Prod.fst → ∃ v, lookupLastStr xs k = some v := by
  intro xs
  induction xs with
  | nil => simp
  | cons kv rest ih =>
    obtain ⟨k1, v1⟩ := kv
    intro k hk
    cases hl : lookupLastStr rest k with
    | some w => exact ⟨w, by simp [lookupLastStr, hl]⟩
    | none =>
      rw [List.map_cons, List.mem_cons] at hk
      rcases hk with h1 | h2
      · subst h1
        exact ⟨v1, by simp [lookupLastStr, hl]⟩
      · obtain ⟨w, hw⟩ := ih h2
        rw [hw] at hl
        simp at hl

/-! ### Lemmas about the Field Mapper -/

theorem subscript_error_cases {d : Json} {k : String} {e : PyErr}
    (h : subscript d k = Except.error e) :
    e = PyErr.keyError ∨ e = PyErr.typeError := by
  cases d <;> simp only [subscript] at h
  case obj kvs =>
    cases hl : lookupStr kvs k <;> rw [hl] at h
    · exact Or.inl (Except.error.injEq .. ▸ h).symm
    · simp at h
  all_goals exact Or.inr (Except.error.injEq .. ▸ h).symm

theorem subscriptKeys_error_cases :
    ∀ {ks : List String} {d : Json} {e : PyErr},
    subscriptKeys d ks = Except.error e →
    e = PyErr.keyError ∨ e = PyErr.typeError := by
  intro ks
  induction ks with
  | nil => intro d e h; simp [subscriptKeys] at h
  | cons k ks ih =>
    intro d e h
    simp only [subscriptKeys] at h
    cases hs : subscript d k with
    | error e2 =>
      rw [hs] at h
      injection h with h
      exact h ▸ subscript_error_cases hs
    | ok d2 =>
      rw [hs] at h
      exact ih h

theorem getFromDict_error_cases {d : Json} {m : MapPath} {e : PyErr}
    (h : ApiObject.getFromDict d m = Except.error e) :
    e = PyErr.keyError ∨ e = PyErr.typeError := by
  cases m with
  | key k => exact subscript_error_cases h
  | keys ks => exact subscriptKeys_error_cases h

theorem buildField_error {d : Json} {m : MapPath} {e : PyErr}
    (h : ApiObject.buildField d m = Except.error e) : e = PyErr.typeError := by
  unfold ApiObject.buildField at h
  cases hg : ApiObject.getFromDict d m with
  | ok v => rw [hg] at h; simp at h
  | error e2 =>
    rw [hg] at h
    rcases getFromDict_error_cases hg with h2 | h2 <;> subst h2
    · simp at h
    · injection h with h
      exact h.symm

theorem buildField_ok_resolve {d : Json} {m : MapPath} {v : Json}
    (h : ApiObject.buildField d m = Except.ok v) : v = ApiObject.resolveField d m := by
  unfold ApiObject.buildField at h
  unfold ApiObject.resolveField
  cases hg : ApiObject.getFromDict d m with
  | ok w => rw [hg] at h; injection h with h; exact h.symm
  | error e2 =>
    rw [hg] at h
    rcases getFromDict_error_cases hg with h2 | h2 <;> subst h2
    · injection h with h; exact h.symm
    · simp at h

theorem buildField_ok_of_not_typeError {d : Json} {m : MapPath}
    (h : ApiObject.getFromDict d m ≠ Except.error PyErr.typeError) :
    ApiObject.buildField d m = Except.ok (ApiObject.resolveField d m) := by
  unfold ApiObject.buildField ApiObject.resolveField
  cases hg : ApiObject.getFromDict d m with
  | ok w => rfl
  | error e2 =>
    rcases getFromDict_error_cases hg with h2 | h2 <;> subst h2
    · rfl
    · exact absurd hg h

theorem build_error {attrs : List (String × MapPath)} {d : Json} {e : PyErr}
    (h : ApiObject.build attrs d = Except.error e) : e = PyErr.typeError := by
  induction attrs with
  | nil => simp [ApiObject.build] at h
  | cons km rest ih =>
    obtain ⟨k, m⟩ := km
    simp only [ApiObject.build] at h
    cases hf : ApiObject.buildField d m with
    | error e2 =>
      rw [hf] at h
      injection h with h
      exact h ▸ buildField_error hf
    | ok v =>
      rw [hf] at h
      cases hb : ApiObject.build rest d with
      | error e2 =>
        rw [hb] at h
        injection h with h
        exact ih (h ▸ hb)
      | ok fs => rw [hb] at h; simp at h

theorem build_ok_resolve {attrs : List (String × MapPath)} {d : Json}
    {fs : List (String × Json)} (h : ApiObject.build attrs d = Except.ok fs) :
    fs = attrs.map (fun km => (km.1, ApiObject.resolveField d km.2)) := by
  induction attrs generalizing fs with
  | nil => simp [ApiObject.build] at h; simp [h]
  | cons km rest ih =>
    obtain ⟨k, m⟩ := km
    simp only [ApiObject.build] at h
    cases hf : ApiObject.buildField d m with
    | error e2 => rw [hf] at h; simp at h
    | ok v =>
      rw [hf] at h
      cases hb : ApiObject.build rest d with
      | error e2 => rw [hb] at h; simp at h
      | ok fs2 =>
        rw [hb] at h
        injection h with h
        subst h
        rw [List.map_cons]
        rw [buildField_ok_resolve hf]
        rw [ih hb]

theorem build_ok_of_not_typeError {attrs : List (String × MapPath)} {d : Json}
    (h : ∀ km ∈ attrs, ApiObject.getFromDict d km.2 ≠ Except.error PyErr.typeError) :
    ApiObject.build attrs d =
      Except.ok (attrs.map (fun km => (km.1, ApiObject.resolveField d km.2))) := by
  induction attrs with
  | nil => rfl
  | cons km rest ih =>
    obtain ⟨k, m⟩ := km
    simp only [ApiObject.build]
    rw [buildField_ok_of_not_typeError (h (k, m) (List.mem_cons_self _ _))]
    rw [ih (fun km2 hm => h km2 (List.mem_cons_of_mem _ hm))]
    rfl

/-! ### Lemmas about the accumulation loop -/

theorem buildList_ok {α : Type} (f : Json → Except PyErr α) :
    ∀ {xs : List Json} {ys : List α}, buildList f xs = Except.ok ys →
    ys.length = xs.length ∧
    ∀ i (hi : i < xs.length) (hi2 : i < ys.length),
      f (xs.get ⟨i, hi⟩) = Except.ok (ys.get ⟨i, hi2⟩) := by
  intro xs
  induction xs with
  | nil =>
    intro ys h
    simp only [buildList] at h
    injection h with h
    subst h
    exact ⟨rfl, fun i hi _ => absurd hi (Nat.not_lt_zero i)⟩
  | cons x xs ih =>
    intro ys h
    simp only [buildList] at h
    cases hf : f x with
    | error e => rw [hf] at h; simp at h
    | ok a =>
      rw [hf] at h
      cases hb : buildList f xs with
      | error e => rw [hb] at h; simp at h
      | ok rest =>
        rw [hb] at h
        injection h with h
        subst h
        obtain ⟨hlen, hidx⟩ := ih hb
        refine ⟨by simp [hlen], ?_⟩
        intro i hi hi2
        cases i with
        | zero => exact hf
        | succ n =>
          exact hidx n (Nat.lt_of_succ_lt_succ hi) (Nat.lt_of_succ_lt_succ hi2)

theorem buildList_exists {α : Type} (f : Json → Except PyErr α) :
    ∀ {xs : List Json}, (∀ x ∈ xs, ∃ a, f x = Except.ok a) →
    ∃ ys, buildList f xs = Except.ok ys := by
  intro xs
  induction xs with
  | nil => intro _; exact ⟨[], rfl⟩
  | cons x xs ih =>
    intro h
    obtain ⟨a, ha⟩ := h x (List.mem_cons_self _ _)
    obtain ⟨rest, hrest⟩ := ih (fun y hy => h y (List.mem_cons_of_mem _ hy))
    refine ⟨a :: rest, ?_⟩
    simp only [buildList]
    rw [ha, hrest]

/-! ### Claim C2: totality and shape of the Field Mapper build -/

/-- C2 (amended): for every attribute mapping and document, the only
exception `_build` can raise is the `TypeError` of a subscript applied
to a non-document value (a `KeyError` is always caught); and whenever no
path of the mapping runs into such a `TypeError`, the build succeeds with
exactly one field per mapping key, unresolvable keys resolving to the
absence marker `None` and resolvable ones to their looked-up value. -/
theorem apiObject_build_spec (attrs : List (String × MapPath)) (d : Json) :
    (∀ e, ApiObject.build attrs d = Except.error e → e = PyErr.typeError) ∧
    ((∀ km ∈ attrs, ApiObject.getFromDict d km.2 ≠ Except.error PyErr.typeError) →
      ∃ fs, ApiObject.build attrs d = Except.ok fs ∧
        fs.map Prod.fst = attrs.map Prod.fst ∧
        (∀ k m, (k, m) ∈ attrs →
          ApiObject.getFromDict d m = Except.error PyErr.keyError →
          (k, Json.null) ∈ fs) ∧
        (∀ k m v, (k, m) ∈ attrs → ApiObject.getFromDict d m = Except.ok v →
          (k, v) ∈ fs)) := by
  constructor
  · intro e h
    exact build_error h
  · intro h
    refine ⟨_, build_ok_of_not_typeError h, ?_, ?_, ?_⟩
    · rw [List.map_map]
      rfl
    · intro k m hm hkey
      refine List.mem_map.mpr ⟨(k, m), hm, ?_⟩
      simp [ApiObject.resolveField, hkey]
    · intro k m v hm hok
      refine List.mem_map.mpr ⟨(k, m), hm, ?_⟩
      simp [ApiObject.resolveField, hok]

/-- C2 counterexample: on the mapping `{a: ["x", "y"]}` and document
`{"x": 5}`, the non-terminal lookup `5["y"]` raises a `TypeError` that
escapes `_build`, contradicting "no exception escapes the build, for any
shape of d". -/
theorem apiObject_build_typeError_cex :
    ApiObject.build [("a", MapPath.keys ["x", "y"])]
      (Json.obj [("x", Json.num 5)]) = Except.error PyErr.typeError := rfl

/-- C2 witness: the amended theorem applied to a concrete mapping with a
resolvable and an unresolvable key. -/
theorem apiObject_build_spec_witness :
    ∃ fs, ApiObject.build buildAttrsEx buildDocEx = Except.ok fs ∧
      fs.map Prod.fst = buildAttrsEx.map Prod.fst ∧
      (∀ k m, (k, m) ∈ buildAttrsEx →
        ApiObject.getFromDict buildDocEx m = Except.error PyErr.keyError →
        (k, Json.null) ∈ fs) ∧
      (∀ k m v, (k, m) ∈ buildAttrsEx →
        ApiObject.getFromDict buildDocEx m = Except.ok v → (k, v) ∈ fs) :=
  (apiObject_build_spec buildAttrsEx buildDocEx).2 (by
    intro km hm hc
    fin_cases hm <;>
      simp [ApiObject.getFromDict, subscript, lookupStr, buildDocEx] at hc)

/-! ### Claim C1: shape-polymorphic Country construction -/

/-- C1 (amended): whenever `country_json['info']` does not itself raise
(the key is present) and the whole construction succeeds, then: if the
`info` value is truthy, the Country's fields are built from the `info`
sub-document and its cost collection holds exactly one `Cost` per
element of `country_json['costs']`, in source order; if the `info` value
is present but falsy, the fields are built from the top-level document
and the cost collection is absent.  (A payload with no `info` key does
not reach either branch: the subscript raises `KeyError`.) -/
theorem country_init_shape (j info : Json) (c : CountryRec)
    (hinfo : subscript j "info" = Except.ok info)
    (hok : Country.init j = Except.ok c) :
    (truthy info = true →
      ApiObject.build Country.attrs info = Except.ok c.fields ∧
      ∃ cv items cs, subscript j "costs" = Except.ok cv ∧
        pyIter cv = Except.ok items ∧
        buildList Cost.init items = Except.ok cs ∧
        c.costs = some cs ∧ cs.length = items.length ∧
        (∀ i (hi : i < items.length) (hi2 : i < cs.length),
          Cost.init (items.get ⟨i, hi⟩) = Except.ok (cs.get ⟨i, hi2⟩))) ∧
    (truthy info = false →
      ApiObject.build Country.attrs j = Except.ok c.fields ∧ c.costs = none) := by
  simp only [Country.init, hinfo] at hok
  constructor
  · intro ht
    rw [ht] at hok
    simp only [if_true] at hok
    cases hb : ApiObject.build Country.attrs info with
    | error e =>
      simp only [hb] at hok
      exact Except.noConfusion hok
    | ok fs =>
      simp only [hb] at hok
      cases hcv : subscript j "costs" with
      | error e =>
        simp only [hcv] at hok
        exact Except.noConfusion hok
      | ok cv =>
        simp only [hcv] at hok
        cases hit : pyIter cv with
        | error e =>
          simp only [hit] at hok
          exact Except.noConfusion hok
        | ok items =>
          simp only [hit] at hok
          cases hcs : buildList Cost.init items with
          | error e =>
            simp only [hcs] at hok
            exact Except.noConfusion hok
          | ok cs =>
            simp only [hcs] at hok
            injection hok with hok
            subst hok
            obtain ⟨hlen, hidx⟩ := buildList_ok Cost.init hcs
            exact ⟨rfl, cv, items, cs, rfl, hit, hcs, rfl, hlen, hidx⟩
  · intro ht
    rw [ht] at hok
    simp only [Bool.false_eq_true, if_false] at hok
    cases hb : ApiObject.build Country.attrs j with
    | error e =>
      simp only [hb] at hok
      exact Except.noConfusion hok
    | ok fs =>
      simp only [hb] at hok
      injection hok with hok
      subst hok
      exact ⟨rfl, rfl⟩

/-- C1 counterexample: a bare country document with no `info` key makes
`Country.__init__` raise `KeyError` instead of mapping the fields from
the top-level document. -/
theorem country_init_missing_info_cex :
    Country.init (Json.obj [("country_code", Json.str "US"),
      ("name", Json.str "X"), ("url", Json.str "u"),
      ("negotiate", Json.num 0), ("currency_code", Json.str "USD")]) =
    Except.error PyErr.keyError := rfl

/-- C1 witness: the truthy-`info` branch of the amended theorem on a
concrete combined info+costs payload with one cost. -/
theorem country_init_shape_witness :
    ApiObject.build Country.attrs infoEx = Except.ok countryRecEx.fields ∧
    ∃ cv items cs, subscript countryJsonEx "costs" = Except.ok cv ∧
      pyIter cv = Except.ok items ∧
      buildList Cost.init items = Except.ok cs ∧
      countryRecEx.costs = some cs ∧ cs.length = items.length ∧
      (∀ i (hi : i < items.length) (hi2 : i < cs.length),
        Cost.init (items.get ⟨i, hi⟩) = Except.ok (cs.get ⟨i, hi2⟩)) :=
  (country_init_shape countryJsonEx infoEx countryRecEx rfl rfl).1 rfl

/-! ### Lemmas about the request execution contract -/

theorem getData_200 (b : Option Json) : Api.getData ⟨200, b⟩ = Api.getDataBody b := rfl

theorem getData_404 (b : Option Json) : Api.getData ⟨404, b⟩ = Except.ok none := rfl

theorem getData_401 (b : Option Json) :
    Api.getData ⟨401, b⟩ = Except.error PyErr.httpError := rfl

theorem getData_40x (s : Nat) (b : Option Json) (h404 : s ≠ 404)
    (h1 : 400 ≤ s) (h2 : s < 600) :
    Api.getData ⟨s, b⟩ = Except.error PyErr.httpError := by
  have hr : raiseForStatus s = Except.error PyErr.httpError := by
    simp [raiseForStatus, h1, h2]
  by_cases h401 : s = 401
  · subst h401
    rfl
  · have h200 : s ≠ 200 := by omega
    simp [Api.getData, h401, h404, h200, hr]

theorem getData_fallthrough (s : Nat) (b : Option Json)
    (hr : ¬(400 ≤ s ∧ s < 600)) (h404 : s ≠ 404) :
    Api.getData ⟨s, b⟩ = Api.getDataBody b := by
  have h401 : s ≠ 401 := by omega
  have hrf : raiseForStatus s = Except.ok () := by
    simp only [raiseForStatus, if_neg hr]
  by_cases h200 : s = 200
  · subst h200
    rfl
  · simp [Api.getData, h401, h404, h200, hrf]

/-! ### Claim C3: malformed response bodies -/

/-- C3 (amended): on a success (200) response, a body that is not valid
JSON yields the absence value (the `ValueError` is caught); but a JSON
body whose root lacks the `data` key raises an uncaught `KeyError` (a
`TypeError` for a non-object root) instead of yielding the absence
value. -/
theorem getData_malformed_body (r : HttpResponse) (h200 : r.status = 200) :
    (r.body = none → Api.getData r = Except.ok none) ∧
    (∀ j e, r.body = some j → subscript j "data" = Except.error e →
      Api.getData r = Except.error e) := by
  obtain ⟨s, b⟩ := r
  have h2 : s = 200 := h200
  subst h2
  constructor
  · intro hb
    have hb2 : b = none := hb
    subst hb2
    rfl
  · intro j e hb hsub
    have hb2 : b = some j := hb
    subst hb2
    show Api.getDataBody (some j) = Except.error e
    simp only [Api.getDataBody, hsub]

/-- C3 counterexample: a 200 response whose JSON body is `{}` (no `data`
key) raises `KeyError` rather than yielding the absence value. -/
theorem getData_missing_data_key_cex :
    Api.getData ⟨200, some (Json.obj [])⟩ = Except.error PyErr.keyError := rfl

/-- C3 witness: the amended theorem applied to a non-JSON 200 body and
to a JSON 200 body whose root is not an object. -/
theorem getData_malformed_body_witness :
    Api.getData ⟨200, none⟩ = Except.ok none ∧
    Api.getData ⟨200, some (Json.arr [])⟩ = Except.error PyErr.typeError :=
  ⟨(getData_malformed_body ⟨200, none⟩ rfl).1 rfl,
   (getData_malformed_body ⟨200, some (Json.arr [])⟩ rfl).2 (Json.arr [])
     PyErr.typeError rfl rfl⟩

/-! ### Claim C4: status-code dispatch -/

/-- C4 (amended): 404 always yields the absence value; 401 raises a
fatal `HTTPError`; every other status in [400, 600) raises a fatal
`HTTPError`; but for a status outside [400, 600) other than 404 —
including non-success statuses such as redirects — `raise_for_status`
is a no-op and the body's `data` value is returned exactly as on
success. -/
theorem getData_status_dispatch (r : HttpResponse) :
    (r.status = 404 → Api.getData r = Except.ok none) ∧
    (r.status = 401 → Api.getData r = Except.error PyErr.httpError) ∧
    (r.status ≠ 404 → 400 ≤ r.status → r.status < 600 →
      Api.getData r = Except.error PyErr.httpError) ∧
    (¬(400 ≤ r.status ∧ r.status < 600) → r.status ≠ 404 →
      ∀ j v, r.body = some j → subscript j "data" = Except.ok v →
        Api.getData r = Except.ok (some v)) := by
  obtain ⟨s, b⟩ := r
  refine ⟨?_, ?_, ?_, ?_⟩
  · intro h
    have h2 : s = 404 := h
    subst h2
    rfl
  · intro h
    have h2 : s = 401 := h
    subst h2
    rfl
  · intro h h1 h2
    exact getData_40x s b h h1 h2
  · intro hr h404 j v hb hsub
    have hb2 : b = some j := hb
    subst hb2
    rw [getData_fallthrough s (some j) hr h404]
    simp only [Api.getDataBody, hsub]

/-- C4 counterexample: a redirect-class 301 response is neither 404 nor
in the `raise_for_status` range, so instead of raising a fatal request
error the fetch returns the body's `data` value. -/
theorem getData_301_returns_data_cex :
    Api.getData ⟨301, some (Json.obj [("data", Json.num 7)])⟩ =
      Except.ok (some (Json.num 7)) := rfl

/-- C4 witness: the amended dispatch applied at statuses 404, 401, 500
and 200. -/
theorem getData_status_dispatch_witness :
    Api.getData ⟨404, none⟩ = Except.ok none ∧
    Api.getData ⟨401, none⟩ = Except.error PyErr.httpError ∧
    Api.getData ⟨500, none⟩ = Except.error PyErr.httpError ∧
    Api.getData ⟨200, some (Json.obj [("data", Json.null)])⟩ =
      Except.ok (some Json.null) :=
  ⟨(getData_status_dispatch ⟨404, none⟩).1 rfl,
   (getData_status_dispatch ⟨401, none⟩).2.1 rfl,
   (getData_status_dispatch ⟨500, none⟩).2.2.1 (by decide) (by decide) (by decide),
   (getData_status_dispatch ⟨200, some (Json.obj [("data", Json.null)])⟩).2.2.2
     (by decide) (by decide) (Json.obj [("data", Json.null)]) Json.null rfl rfl⟩

/-! ### Claim C5: multi-resource lookup -/

/-- C5: when the fetch yields a non-empty list of documents and each
document is constructible, the multi-resource lookup returns exactly one
record per input document, in input order; when the fetch yields an
empty list or the absence value, it returns the absence value, never an
empty sequence. -/
theorem getMultiple_spec {α : Type} (fetch : String → HttpResponse)
    (endPoint path : String) (mk : Json → Except PyErr α) :
    (∀ ds, Api.getData (fetch (Api.posixJoin endPoint path)) =
        Except.ok (some (Json.arr ds)) →
      ds ≠ [] → (∀ d ∈ ds, ∃ o, mk d = Except.ok o) →
      ∃ objs, Api.getMultipleWith fetch endPoint path mk = Except.ok (some objs) ∧
        objs.length = ds.length ∧
        ∀ i (hi : i < ds.length) (hi2 : i < objs.length),
          mk (ds.get ⟨i, hi⟩) = Except.ok (objs.get ⟨i, hi2⟩)) ∧
    (Api.getData (fetch (Api.posixJoin endPoint path)) =
        Except.ok (some (Json.arr [])) →
      Api.getMultipleWith fetch endPoint path mk = Except.ok none) ∧
    (Api.getData (fetch (Api.posixJoin endPoint path)) = Except.ok none →
      Api.getMultipleWith fetch endPoint path mk = Except.ok none) := by
  refine ⟨?_, ?_, ?_⟩
  · intro ds hd hne hall
    obtain ⟨objs, hobjs⟩ := buildList_exists mk hall
    obtain ⟨hlen, hidx⟩ := buildList_ok mk hobjs
    refine ⟨objs, ?_, hlen, hidx⟩
    have ht : truthy (Json.arr ds) = true := by
      cases ds with
      | nil => exact absurd rfl hne
      | cons x xs => rfl
    simp only [Api.getMultipleWith, hd, ht, if_true, pyIter, hobjs]
  · intro hd
    simp [Api.getMultipleWith, hd, truthy]
  · intro hd
    simp [Api.getMultipleWith, hd]

/-- C5 witness: the lookup applied to a session returning a two-element
payload, with the identity constructor. -/
theorem getMultiple_spec_witness :
    ∃ objs, Api.getMultipleWith fetchListEx "https://api" "categories/"
        (Except.ok : Json → Except PyErr Json) = Except.ok (some objs) ∧
      objs.length = [Json.num 1, Json.num 2].length ∧
      ∀ i (hi : i < [Json.num 1, Json.num 2].length) (hi2 : i < objs.length),
        (Except.ok ([Json.num 1, Json.num 2].get ⟨i, hi⟩) :
            Except PyErr Json) = Except.ok (objs.get ⟨i, hi2⟩) :=
  (getMultiple_spec fetchListEx "https://api" "categories/"
      (Except.ok : Json → Except PyErr Json)).1
    [Json.num 1, Json.num 2] rfl (by simp) (fun d _ => ⟨d, rfl⟩)

/-! ### Claim C6: currency conversion -/

/-- C6: for every amount and currency pair, if the fetch yields the
absence value the conversion returns the absence value; if it yields a
truthy payload carrying a `newAmount` field, the conversion returns that
field's raw value, not wrapped in a domain record. -/
theorem convertCurrency_spec (fetch : String → HttpResponse) (endPoint : String)
    (amount : Int) (fromCur toCur : String) :
    (Api.getData (fetch (Api.posixJoin endPoint
        (Api.convertPath amount fromCur toCur))) = Except.ok none →
      Api.convertCurrency fetch endPoint amount fromCur toCur = Except.ok none) ∧
    (∀ d v, Api.getData (fetch (Api.posixJoin endPoint
        (Api.convertPath amount fromCur toCur))) = Except.ok (some d) →
      truthy d = true → subscript d "newAmount" = Except.ok v →
      Api.convertCurrency fetch endPoint amount fromCur toCur =
        Except.ok (some v)) := by
  constructor
  · intro hd
    simp [Api.convertCurrency, hd]
  · intro d v hd ht hsub
    simp only [Api.convertCurrency, hd, ht, if_true, hsub]

/-- C6 witness: converting 15 usd to eur against a session answering
with `newAmount = 17`. -/
theorem convertCurrency_spec_witness :
    Api.convertCurrency fetchConvEx "https://api" 15 "usd" "eur" =
      Except.ok (some (Json.num 17)) :=
  (convertCurrency_spec fetchConvEx "https://api" 15 "usd" "eur").2
    (Json.obj [("newAmount", Json.num 17)]) (Json.num 17) rfl rfl rfl

/-! ### Claim C10: falsy payloads are treated as absence -/

/-- C10: a successful fetch whose unwrapped `data` value is falsy (empty
document, empty string, 0, false or `None`) makes the single-resource
lookup and the currency conversion return the absence value rather than
construct a record or extract a field. -/
theorem falsy_data_absence {α : Type} (fetch : String → HttpResponse)
    (endPoint path : String) (mk : Json → Except PyErr α)
    (amount : Int) (fromCur toCur : String) (d d2 : Json)
    (hfalsy : truthy d = false) (hfalsy2 : truthy d2 = false) :
    (Api.getData (fetch (Api.posixJoin endPoint path)) = Except.ok (some d) →
      Api.buildResponseWith fetch endPoint path mk = Except.ok none) ∧
    (Api.getData (fetch (Api.posixJoin endPoint
        (Api.convertPath amount fromCur toCur))) = Except.ok (some d2) →
      Api.convertCurrency fetch endPoint amount fromCur toCur =
        Except.ok none) := by
  constructor
  · intro hd
    simp [Api.buildResponseWith, hd, hfalsy]
  · intro hd
    simp [Api.convertCurrency, hd, hfalsy2]

/-- C10 witness: both operations against a session answering with the
falsy payload `{}`. -/
theorem falsy_data_absence_witness :
    Api.buildResponseWith fetchFalsyEx "https://api" "categories/1"
        (mkApiObject "Category" Category.attrs (PyVal.json Json.null)) =
      Except.ok none ∧
    Api.convertCurrency fetchFalsyEx "https://api" 15 "usd" "eur" =
      Except.ok none :=
  ⟨(falsy_data_absence fetchFalsyEx "https://api" "categories/1"
      (mkApiObject "Category" Category.attrs (PyVal.json Json.null))
      15 "usd" "eur" (Json.obj []) (Json.obj []) rfl rfl).1 rfl,
   (falsy_data_absence fetchFalsyEx "https://api" "categories/1"
      (mkApiObject "Category" Category.attrs (PyVal.json Json.null))
      15 "usd" "eur" (Json.obj []) (Json.obj []) rfl rfl).2 rfl⟩

/-! ### Lemmas about `__eq__` and the dict restriction -/

theorem restrictLoop_lookup {d : List (String × PyVal)} :
    ∀ {attrs : List (String × MapPath)} {fs : List (String × PyVal)},
    restrictLoop d attrs = Except.ok fs →
    ∀ k, lookupStr fs k =
      if k ∈ attrs.map Prod.fst then lookupStr d k else none := by
  intro attrs
  induction attrs with
  | nil =>
    intro fs h k
    simp only [restrictLoop] at h
    injection h with h
    subst h
    simp [lookupStr]
  | cons km rest ih =>
    obtain ⟨k1, m1⟩ := km
    intro fs h k
    simp only [restrictLoop] at h
    cases hv : lookupStr d k1 with
    | none =>
      rw [hv] at h
      exact Except.noConfusion h
    | some v =>
      rw [hv] at h
      cases hrest : restrictLoop d rest with
      | error e =>
        simp only [hrest] at h
        exact Except.noConfusion h
      | ok fs2 =>
        simp only [hrest] at h
        injection h with h
        subst h
        by_cases hk : k1 = k
        · subst hk
          simp [lookupStr, hv]
        · have hne : ¬ k = k1 := fun he => hk he.symm
          simp only [lookupStr, if_neg hk, ih hrest k, List.map_cons,
            List.mem_cons, hne, false_or]

theorem restrictLoop_keys {d : List (String × PyVal)} :
    ∀ {attrs : List (String × MapPath)} {fs : List (String × PyVal)},
    restrictLoop d attrs = Except.ok fs →
    fs.map Prod.fst = attrs.map Prod.fst := by
  intro attrs
  induction attrs with
  | nil =>
    intro fs h
    simp only [restrictLoop] at h
    injection h with h
    subst h
    rfl
  | cons km rest ih =>
    obtain ⟨k1, m1⟩ := km
    intro fs h
    simp only [restrictLoop] at h
    cases hv : lookupStr d k1 with
    | none =>
      rw [hv] at h
      exact Except.noConfusion h
    | some v =>
      rw [hv] at h
      cases hrest : restrictLoop d rest with
      | error e =>
        simp only [hrest] at h
        exact Except.noConfusion h
      | ok fs2 =>
        simp only [hrest] at h
        injection h with h
        subst h
        simp only [List.map_cons, ih hrest]

theorem restrictLoop_exists {d : List (String × PyVal)} :
    ∀ {attrs : List (String × MapPath)},
    (∀ km ∈ attrs, ∃ v, lookupStr d km.1 = some v) →
    ∃ fs, restrictLoop d attrs = Except.ok fs := by
  intro attrs
  induction attrs with
  | nil => intro _; exact ⟨[], rfl⟩
  | cons km rest ih =>
    obtain ⟨k1, m1⟩ := km
    intro h
    obtain ⟨v, hv⟩ := h (k1, m1) (List.mem_cons_self _ _)
    obtain ⟨fs2, hfs2⟩ := ih (fun km2 hm => h km2 (List.mem_cons_of_mem _ hm))
    refine ⟨(k1, v) :: fs2, ?_⟩
    simp only [restrictLoop]
    rw [hv, hfs2]

theorem restrictLoop_mem {d : List (String × PyVal)} :
    ∀ {attrs : List (String × MapPath)} {fs : List (String × PyVal)},
    restrictLoop d attrs = Except.ok fs →
    ∀ kv ∈ fs, lookupStr d kv.1 = some kv.2 := by
  intro attrs
  induction attrs with
  | nil =>
    intro fs h kv hkv
    simp only [restrictLoop] at h
    injection h with h
    subst h
    simp at hkv
  | cons km rest ih =>
    obtain ⟨k1, m1⟩ := km
    intro fs h kv hkv
    simp only [restrictLoop] at h
    cases hv : lookupStr d k1 with
    | none =>
      rw [hv] at h
      exact Except.noConfusion h
    | some v =>
      rw [hv] at h
      cases hrest : restrictLoop d rest with
      | error e =>
        simp only [hrest] at h
        exact Except.noConfusion h
      | ok fs2 =>
        simp only [hrest] at h
        injection h with h
        subst h
        rcases List.mem_cons.mp hkv with h1 | h2
        · subst h1
          exact hv
        · exact ih hrest kv h2

theorem restrictLoop_coherent {d : List (String × PyVal)}
    {attrs : List (String × MapPath)} {fs : List (String × PyVal)}
    (h : restrictLoop d attrs = Except.ok fs) :
    ∀ kv ∈ fs, lookupStr fs kv.1 = some kv.2 := by
  intro kv hkv
  have hk : kv.1 ∈ fs.map Prod.fst := List.mem_map_of_mem Prod.fst hkv
  rw [restrictLoop_keys h] at hk
  rw [restrictLoop_lookup h kv.1, if_pos hk]
  exact restrictLoop_mem h kv hkv

theorem restrictLoop_dict_some {d : List (String × PyVal)}
    {attrs : List (String × MapPath)} {fs : List (String × PyVal)}
    (h : restrictLoop d attrs = Except.ok fs) {k : String}
    (hk : k ∈ attrs.map Prod.fst) : ∃ v, lookupStr d k = some v := by
  have hk2 : k ∈ fs.map Prod.fst := by rw [restrictLoop_keys h]; exact hk
  obtain ⟨v, hv⟩ := lookupStr_isSome_of_mem hk2
  rw [restrictLoop_lookup h k, if_pos hk] at hv
  exact ⟨v, hv⟩

theorem dictEqB_iff {xs ys : List (String × PyVal)}
    (hx : ∀ kv ∈ xs, lookupStr xs kv.1 = some kv.2)
    (hy : ∀ kv ∈ ys, lookupStr ys kv.1 = some kv.2) :
    dictEqB xs ys = true ↔ ∀ k, lookupStr xs k = lookupStr ys k := by
  unfold dictEqB
  rw [Bool.and_eq_true, List.all_eq_true, List.all_eq_true]
  constructor
  · rintro ⟨h1, h2⟩ k
    cases hlx : lookupStr xs k with
    | some v =>
      have hmem := mem_of_lookupStr hlx
      have hp := h1 (k, v) hmem
      cases hly : lookupStr ys k with
      | none => rw [hly] at hp; simp [Option.elim] at hp
      | some w =>
        rw [hly] at hp
        simp only [Option.elim] at hp
        rw [(pyValBeq_iff v w).mp hp]
    | none =>
      cases hly : lookupStr ys k with
      | none => rfl
      | some w =>
        have hmem := mem_of_lookupStr hly
        have hp := h2 (k, w) hmem
        rw [hlx] at hp
        simp [Option.elim] at hp
  · intro hpt
    constructor
    · intro kv hkv
      have h1 := hx kv hkv
      have h2 : lookupStr ys kv.1 = some kv.2 := by rw [← hpt kv.1]; exact h1
      rw [h2]
      simp only [Option.elim]
      exact (pyValBeq_iff kv.2 kv.2).mpr rfl
    · intro kv hkv
      have h1 := hy kv hkv
      have h2 : lookupStr xs kv.1 = some kv.2 := by rw [hpt kv.1]; exact h1
      rw [h2]
      simp only [Option.elim]
      exact (pyValBeq_iff kv.2 kv.2).mpr rfl

theorem apiObject_eq_true_iff (a b : PyObj)
    (hattrs : a.ty = b.ty → a.attrs = b.attrs) :
    ApiObject.eq a b = Except.ok true ↔
      (a.ty = b.ty ∧ ∀ k ∈ a.attrs.map Prod.fst,
        ∃ v, lookupStr a.dict k = some v ∧ lookupStr b.dict k = some v) := by
  by_cases hty : a.ty = b.ty
  · have hab : a.attrs = b.attrs := hattrs hty
    unfold ApiObject.eq
    rw [if_pos hty]
    constructor
    · intro h
      cases hra : restrictDict a with
      | error e =>
        simp only [hra] at h
        exact Except.noConfusion h
      | ok da =>
        simp only [hra] at h
        cases hrb : restrictDict b with
        | error e =>
          simp only [hrb] at h
          exact Except.noConfusion h
        | ok db =>
          simp only [hrb] at h
          injection h with h
          refine ⟨hty, ?_⟩
          intro k hk
          obtain ⟨v, hv⟩ := restrictLoop_dict_some hra hk
          refine ⟨v, hv, ?_⟩
          have hpt := (dictEqB_iff (restrictLoop_coherent hra)
            (restrictLoop_coherent hrb)).mp h k
          rw [restrictLoop_lookup hra k, restrictLoop_lookup hrb k,
            ← hab, if_pos hk, if_pos hk] at hpt
          rw [← hpt]
          exact hv
    · rintro ⟨-, hall⟩
      have hallA : ∀ km ∈ a.attrs, ∃ v, lookupStr a.dict km.1 = some v := by
        intro km hm
        obtain ⟨v, hv, -⟩ := hall km.1 (List.mem_map_of_mem Prod.fst hm)
        exact ⟨v, hv⟩
      have hallB : ∀ km ∈ b.attrs, ∃ v, lookupStr b.dict km.1 = some v := by
        intro km hm
        rw [← hab] at hm
        obtain ⟨v, -, hv⟩ := hall km.1 (List.mem_map_of_mem Prod.fst hm)
        exact ⟨v, hv⟩
      obtain ⟨da, hda⟩ := restrictLoop_exists hallA
      obtain ⟨db, hdb⟩ := restrictLoop_exists hallB
      have hda2 : restrictDict a = Except.ok da := hda
      have hdb2 : restrictDict b = Except.ok db := hdb
      simp only [hda2, hdb2]
      have hd : dictEqB da db = true := by
        rw [dictEqB_iff (restrictLoop_coherent hda) (restrictLoop_coherent hdb)]
        intro k
        rw [restrictLoop_lookup hda k, restrictLoop_lookup hdb k, ← hab]
        by_cases hk : k ∈ a.attrs.map Prod.fst
        · rw [if_pos hk, if_pos hk]
          obtain ⟨v, hv1, hv2⟩ := hall k hk
          rw [hv1, hv2]
        · rw [if_neg hk, if_neg hk]
      rw [hd]
  · unfold ApiObject.eq
    rw [if_neg hty]
    constructor
    · intro h
      injection h with h
      exact Bool.noConfusion h
    · rintro ⟨h, -⟩
      exact absurd h hty

theorem restrictLoop_update_notin {d : List (String × PyVal)} {k0 : String}
    {w : PyVal} :
    ∀ {attrs : List (String × MapPath)}, k0 ∉ attrs.map Prod.fst →
    restrictLoop (updateStr d k0 w) attrs = restrictLoop d attrs := by
  intro attrs
  induction attrs with
  | nil => intro _; rfl
  | cons km rest ih =>
    obtain ⟨k1, m1⟩ := km
    intro h
    rw [List.map_cons, List.mem_cons] at h
    push_neg at h
    obtain ⟨h1, h2⟩ := h
    simp only [restrictLoop, lookupStr_updateStr_ne d k0 k1 w (Ne.symm h1), ih h2]

/-! ### Claim C7: the equality contract -/

/-- C7: under the class invariant that the run-time class determines the
declared attribute mapping, two objects are equal under `__eq__` exactly
when they have the same class and the same resolved value at every
declared attribute key; and updating any dict entry outside the declared
keys — in particular the `_api` client back-reference or the `costs`
list — does not change the result of `__eq__` in either argument. -/
theorem apiObject_eq_spec (a b : PyObj)
    (hattrs : a.ty = b.ty → a.attrs = b.attrs) :
    (ApiObject.eq a b = Except.ok true ↔
      (a.ty = b.ty ∧ ∀ k ∈ a.attrs.map Prod.fst,
        ∃ v, lookupStr a.dict k = some v ∧ lookupStr b.dict k = some v)) ∧
    (∀ k0 w, k0 ∉ a.attrs.map Prod.fst →
      ApiObject.eq ⟨a.ty, a.attrs, updateStr a.dict k0 w⟩ b =
        ApiObject.eq a b) ∧
    (∀ k0 w, k0 ∉ b.attrs.map Prod.fst →
      ApiObject.eq a ⟨b.ty, b.attrs, updateStr b.dict k0 w⟩ =
        ApiObject.eq a b) := by
  refine ⟨apiObject_eq_true_iff a b hattrs, ?_, ?_⟩
  · intro k0 w hk0
    unfold ApiObject.eq restrictDict
    simp only [restrictLoop_update_notin hk0]
  · intro k0 w hk0
    unfold ApiObject.eq restrictDict
    simp only [restrictLoop_update_notin hk0]

/-- C7 witness: two `Category` objects with the same mapped values but
different client back-references are equal, and overwriting the `_api`
entry of the first one leaves equality unchanged. -/
theorem apiObject_eq_spec_witness :
    ApiObject.eq catObjEx1 catObjEx2 = Except.ok true ∧
    ApiObject.eq ⟨catObjEx1.ty, catObjEx1.attrs,
        updateStr catObjEx1.dict "_api" (PyVal.obj 99)⟩ catObjEx2 =
      ApiObject.eq catObjEx1 catObjEx2 :=
  ⟨(apiObject_eq_spec catObjEx1 catObjEx2 (fun _ => rfl)).1.mpr
    ⟨rfl, by
      intro k hk
      fin_cases hk
      · exact ⟨PyVal.json (Json.num 1), rfl, rfl⟩
      · exact ⟨PyVal.json (Json.str "Accommodation"), rfl, rfl⟩
      · exact ⟨PyVal.json (Json.str "d"), rfl, rfl⟩⟩,
   (apiObject_eq_spec catObjEx1 catObjEx2 (fun _ => rfl)).2.1 "_api"
    (PyVal.obj 99) (by simp [catObjEx1, Category.attrs])⟩

/-! ### Lemmas about model-object construction -/

theorem mkApiObject_lookup {ty : String} {attrs : List (String × MapPath)}
    {api : PyVal} {j : Json} {o : PyObj}
    (h : mkApiObject ty attrs api j = Except.ok o) :
    o.ty = ty ∧ o.attrs = attrs ∧
    ∀ k, k ∈ attrs.map Prod.fst →
      lookupStr o.dict k =
        (lookupLastStr
          (attrs.map (fun km => (km.1, ApiObject.resolveField j km.2))) k).map
          PyVal.json := by
  unfold mkApiObject at h
  cases hb : ApiObject.build attrs j with
  | error e =>
    rw [hb] at h
    exact Except.noConfusion h
  | ok fs =>
    rw [hb] at h
    injection h with h
    subst h
    refine ⟨rfl, rfl, ?_⟩
    intro k hk
    show lookupStr (fs.foldl (fun d kv => updateStr d kv.1 (PyVal.json kv.2))
      [("_api", api), ("attrs", PyVal.attrsVal attrs)]) k = _
    rw [lookupStr_foldl_update PyVal.json fs
      [("_api", api), ("attrs", PyVal.attrsVal attrs)] k]
    rw [build_ok_resolve hb]
    have hkeys : k ∈ (attrs.map
        (fun km => (km.1, ApiObject.resolveField j km.2))).map Prod.fst := by
      rw [List.map_map]
      exact hk
    obtain ⟨v, hv⟩ := lookupLastStr_isSome_of_mem hkeys
    rw [hv]
    rfl

/-! ### Claim C8: idempotent single-resource lookup -/

/-- C8: two single-resource lookups against the same session state and
path, each succeeding with a record (allowing different client
back-references in the two constructions), return records that are equal
under `__eq__`. -/
theorem buildResponse_idempotent (fetch : String → HttpResponse)
    (endPoint path ty : String) (attrs : List (String × MapPath))
    (api1 api2 : PyVal) (o1 o2 : PyObj)
    (h1 : Api.buildResponseWith fetch endPoint path
      (mkApiObject ty attrs api1) = Except.ok (some o1))
    (h2 : Api.buildResponseWith fetch endPoint path
      (mkApiObject ty attrs api2) = Except.ok (some o2)) :
    ApiObject.eq o1 o2 = Except.ok true := by
  unfold Api.buildResponseWith at h1 h2
  cases hd : Api.getData (fetch (Api.posixJoin endPoint path)) with
  | error e =>
    simp only [hd] at h1
    exact Except.noConfusion h1
  | ok od =>
    cases od with
    | none =>
      simp only [hd] at h1
      injection h1 with h1
      exact Option.noConfusion h1
    | some d =>
      simp only [hd] at h1 h2
      by_cases ht : truthy d = true
      · rw [ht] at h1 h2
        simp only [if_true] at h1 h2
        cases hm1 : mkApiObject ty attrs api1 d with
        | error e =>
          simp only [hm1] at h1
          exact Except.noConfusion h1
        | ok o1b =>
          simp only [hm1] at h1
          injection h1 with h1
          injection h1 with h1
          subst h1
          cases hm2 : mkApiObject ty attrs api2 d with
          | error e =>
            simp only [hm2] at h2
            exact Except.noConfusion h2
          | ok o2b =>
            simp only [hm2] at h2
            injection h2 with h2
            injection h2 with h2
            subst h2
            obtain ⟨hty1, hat1, hlk1⟩ := mkApiObject_lookup hm1
            obtain ⟨hty2, hat2, hlk2⟩ := mkApiObject_lookup hm2
            apply (apiObject_eq_true_iff o1b o2b
              (fun _ => by rw [hat1, hat2])).mpr
            refine ⟨by rw [hty1, hty2], ?_⟩
            intro k hk
            rw [hat1] at hk
            have hkF : k ∈ (attrs.map
                (fun km => (km.1, ApiObject.resolveField d km.2))).map
                Prod.fst := by
              rw [List.map_map]
              exact hk
            obtain ⟨v, hv⟩ := lookupLastStr_isSome_of_mem hkF
            refine ⟨PyVal.json v, ?_, ?_⟩
            · rw [hlk1 k hk, hv]
              rfl
            · rw [hlk2 k hk, hv]
              rfl
      · have ht2 : truthy d = false := by
          cases htd : truthy d
          · rfl
          · exact absurd htd ht
        rw [ht2] at h1
        simp only [Bool.false_eq_true, if_false] at h1
        injection h1 with h1
        exact Option.noConfusion h1

/-- C8 witness: the same category lookup performed by two client
instances against the same session yields equal records. -/
theorem buildResponse_idempotent_witness :
    ApiObject.eq catObjEx1 catObjEx2 = Except.ok true ∧
    catObjEx1.ty = catObjEx2.ty :=
  ⟨buildResponse_idempotent fetchCatEx "https://api" "categories/1" "Category"
    Category.attrs (PyVal.obj 1) (PyVal.obj 2) catObjEx1 catObjEx2 rfl rfl,
   rfl⟩

/-! ### Claim C9: the api_method guard -/

/-- C9: for an object whose `_api` entry holds the value v (the absence
marker `None` included): if v is falsy, a method decorated with
`api_method` raises `NotImplementedError` and the wrapped function is
never executed (the result is the same for every wrapped function); if v
is truthy, the wrapped function is invoked on the original arguments and
its result returned unchanged. -/
theorem apiMethod_spec {α β : Type} (self : PyObj) (arg : α) (v : PyVal)
    (h : lookupStr self.dict "_api" = some v) :
    (v.pyTruthy = false → ∀ func : PyObj → α → Except PyErr β,
      apiMethod func self arg = Except.error PyErr.notImplementedError) ∧
    (v.pyTruthy = true → ∀ func : PyObj → α → Except PyErr β,
      apiMethod func self arg = func self arg) := by
  constructor
  · intro hf func
    simp [apiMethod, h, hf]
  · intro ht func
    simp [apiMethod, h, ht]

/-- C9 witness: a detached object (back-reference `None`) raises
`NotImplementedError`, an attached one runs the wrapped function. -/
theorem apiMethod_spec_witness :
    apiMethod (fun _ _ => Except.ok (0 : Nat)) detachedObjEx () =
      Except.error PyErr.notImplementedError ∧
    apiMethod (fun _ _ => Except.ok (0 : Nat)) attachedObjEx () =
      Except.ok (0 : Nat) :=
  ⟨(apiMethod_spec detachedObjEx () (PyVal.json Json.null) rfl).1 rfl
      (fun _ _ => Except.ok 0),
   (apiMethod_spec attachedObjEx () (PyVal.obj 7) rfl).2 rfl
      (fun _ _ => Except.ok 0)⟩
